import Mathlib

/-!
Shallow embedding of the core of the Trading-Bot repository
(src/risk.rs, src/prices.rs, src/strategy.rs, src/execution.rs).

Conventions of the embedding:
* Rust `u64` fields become `Nat` (saturating subtraction of `u64`
  (`saturating_sub`) is `Nat` subtraction); the `i64` P&L accumulator
  becomes `Int`.
* Rust `f64` arithmetic is embedded over `ℚ`; `as i64` casts are modelled
  as truncation toward zero with saturation at the `i64` bounds.
* `Instant`/`Duration` values are nanosecond counts (`Nat`);
  `Duration::from_secs n` is `n * 1000000000`, `t.elapsed()` at instant
  `now` is `now - t`.
* `VecDeque<PriceSnapshot>` becomes `List PriceSnapshot` (front = head);
  the rtrb SPSC ring buffer, seen from the strategy side, becomes a
  bounded FIFO list: `push` appends when below capacity and fails (leaving
  the buffer unchanged) when full.
* Logging, printing and database writes are ignored; they do not touch the
  state the claims are about.
-/

namespace TradingBot

/-! ## src/types.rs -/

/-- `PriceSnapshot` from src/types.rs: Binance price × 100 and a
millisecond timestamp. -/
structure PriceSnapshot where
  price_cents : Nat
  timestamp_ms : Nat
deriving Repr, DecidableEq

/-! ## src/risk.rs -/

/-- `RiskTier` enum from src/risk.rs. -/
inductive RiskTier where
  | Conservative
  | Moderate
  | Aggressive
deriving Repr, DecidableEq

/-- `PROFIT_THRESHOLD_CENTS` from src/risk.rs. -/
def PROFIT_THRESHOLD_CENTS : Int := 1000

/-- `LOSS_THRESHOLD_CENTS` from src/risk.rs. -/
def LOSS_THRESHOLD_CENTS : Int := -1000

/-- `RiskManager::calculate_tier` from src/risk.rs. -/
def calculate_tier (pnl_cents : Int) : RiskTier :=
  if PROFIT_THRESHOLD_CENTS ≤ pnl_cents then RiskTier.Aggressive
  else if pnl_cents ≤ LOSS_THRESHOLD_CENTS then RiskTier.Conservative
  else RiskTier.Moderate

/-- Truncation toward zero with saturation at the `i64` bounds: the
behaviour of Rust's `as i64` cast on a finite `f64`, over the `ℚ`
embedding of `f64`. -/
def f64AsI64 (q : ℚ) : Int :=
  max (-(2 ^ 63)) (min (2 ^ 63 - 1) (if 0 ≤ q then ⌊q⌋ else ⌈q⌉))

/-- `RiskManager::update_pnl` from src/risk.rs: add the delta
(dollars × 100, cast to `i64`) to the session accumulator and return the
tier of the new total, paired with the new accumulator value.  The
`AtomicI64` is passed explicitly as the `pnl_cents` state. -/
def update_pnl (pnl_cents : Int) (pnl_dollars : ℚ) : Int × RiskTier :=
  let delta := f64AsI64 (pnl_dollars * 100)
  let new_total := pnl_cents + delta
  (new_total, calculate_tier new_total)

/-! ## src/prices.rs -/

/-- `MAX_ENTRY_PRICE` from src/prices.rs. -/
def MAX_ENTRY_PRICE : ℚ := 65 / 100

/-- `MIN_UPSIDE` from src/prices.rs. -/
def MIN_UPSIDE : ℚ := 30 / 100

/-- `MAX_SPREAD` from src/prices.rs. -/
def MAX_SPREAD : ℚ := 10 / 100

/-- `calculate_spread` from src/prices.rs. -/
def calculate_spread (bid ask : ℚ) : ℚ :=
  if bid ≤ 0 then 1 else (ask - bid) / bid

/-- `calculate_upside` from src/prices.rs. -/
def calculate_upside (price : ℚ) : ℚ :=
  if price ≤ 0 ∨ 1 ≤ price then 0 else (1 - price) / price

/-- `passes_value_filters` from src/prices.rs: price cap, then upside
floor, then spread cap; `Ok` carries the (upside, spread) pair. -/
def passes_value_filters (entry_price bid ask : ℚ) :
    Except String (ℚ × ℚ) :=
  if MAX_ENTRY_PRICE < entry_price then Except.error "price too high"
  else
    let upside := calculate_upside entry_price
    if upside < MIN_UPSIDE then Except.error "upside too low"
    else
      let spread := calculate_spread bid ask
      if MAX_SPREAD < spread then Except.error "spread too wide"
      else Except.ok (upside, spread)

/-! ## src/strategy.rs : constants -/

def MOMENTUM_WINDOW_60MIN_SECS : Nat := 600
def MOMENTUM_WINDOW_15MIN_SECS : Nat := 180
def MOMENTUM_THRESHOLD_60MIN : ℚ := 5 / 10000
def MOMENTUM_THRESHOLD_15MIN : ℚ := 1 / 1000
def TRADE_SIZE_DOLLARS : Nat := 10
def MAX_POSITIONS : Nat := 3
def COOLDOWN_SECS : Nat := 5
def STOP_LOSS_THRESHOLD_15MIN : ℚ := 2 / 1000
def STOP_LOSS_THRESHOLD_60MIN : ℚ := 3 / 1000
def STOP_LOSS_ACTIVE_15MIN_SECS : Nat := 180
def STOP_LOSS_ACTIVE_60MIN_SECS : Nat := 900
def MARKET_DURATION_15MIN_SECS : Nat := 900
def MARKET_DURATION_60MIN_SECS : Nat := 3600

/-- `Duration::from_secs` in the nanosecond embedding of `Duration`. -/
def secsToNanos (s : Nat) : Nat := s * 1000000000

/-! ## src/strategy.rs : momentum -/

/-- `calculate_momentum` from src/strategy.rs: 0 on an empty history;
otherwise `oldest` is the first snapshot at or after `now - window_ms`
and `current` the last snapshot, and the result is
`(current - oldest) / oldest` guarded by `oldest > 0` (0 otherwise). -/
def calculate_momentum (history : List PriceSnapshot)
    (now_ms window_ms : Nat) : ℚ :=
  if history.isEmpty then 0
  else
    let cutoff := now_ms - window_ms
    let oldest := (history.find? fun p =>
      decide (cutoff ≤ p.timestamp_ms)).map (·.price_cents)
    let current := history.getLast?.map (·.price_cents)
    match oldest, current with
    | some old, some cur =>
        if (0 : Nat) < old then ((cur : ℚ) - (old : ℚ)) / (old : ℚ) else 0
    | _, _ => 0

/-- The history update of one tick in `run_strategy`
(src/strategy.rs lines 106–118): `push_back` the new snapshot, then pop
from the front every snapshot with `timestamp_ms < ts - 900000`. -/
def insertAndPrune (history : List PriceSnapshot) (price ts : Nat) :
    List PriceSnapshot :=
  let pushed := history ++ [⟨price, ts⟩]
  let cutoff := ts - 900000
  pushed.dropWhile fun f => decide (f.timestamp_ms < cutoff)

/-! ## src/execution.rs / src/strategy.rs : channel and instructions -/

/-- `TradeInstruction` from src/execution.rs. -/
structure TradeInstruction where
  symbol : Nat
  side : Nat
  price_cents : Nat
  size : Nat
deriving Repr, DecidableEq

/-- The strategy→execution rtrb ring buffer, seen from the strategy
producer: a bounded FIFO.  `push` appends when below capacity; on a full
buffer it fails and the buffer is unchanged (rtrb `Producer::push`
returning `Err(PushError::Full)`). -/
structure Channel where
  capacity : Nat
  buf : List TradeInstruction
deriving Repr, DecidableEq

/-- `Producer::push`: the new channel state and whether the push
succeeded. -/
def Channel.push (c : Channel) (t : TradeInstruction) : Channel × Bool :=
  if c.buf.length < c.capacity then (⟨c.capacity, c.buf ++ [t]⟩, true)
  else (c, false)

/-! ## src/strategy.rs : positions and the tick step -/

/-- `MarketUpdate` from src/ingestion.rs as consumed by the strategy:
asset symbol, price in cents, millisecond timestamp. -/
structure MarketUpdate where
  symbol : Nat
  price : Nat
  ts : Nat
deriving Repr, DecidableEq

/-- `Position` from src/strategy.rs (entry momentum over `ℚ`,
`entry_time` an `Instant` in nanoseconds). -/
structure Position where
  asset_symbol : Nat
  market_type : Nat
  side : Nat
  entry_momentum : ℚ
  entry_time : Nat
  entry_price_cents : Nat
deriving Repr, DecidableEq

/-- The mutable state of the `run_strategy` loop: per-asset price
histories (keys 1–4), the open-position vector, per-asset last-trade
instants. -/
structure StratState where
  histories : Nat → List PriceSnapshot
  positions : List Position
  lastTradeTimes : Nat → Option Nat

/-- The keys inserted into `price_histories` at startup
(src/strategy.rs lines 57–60); a tick whose symbol is not among them is
skipped. -/
def knownAssets : List Nat := [1, 2, 3, 4]

/-- The `(market_duration, danger_zone, threshold)` triple selected per
position in the stop-loss check (src/strategy.rs lines 162–170);
durations in nanoseconds. -/
def stopLossParams (market_type : Nat) : Nat × Nat × ℚ :=
  if market_type = 60 then
    (secsToNanos MARKET_DURATION_60MIN_SECS,
     secsToNanos STOP_LOSS_ACTIVE_60MIN_SECS,
     STOP_LOSS_THRESHOLD_60MIN)
  else
    (secsToNanos MARKET_DURATION_15MIN_SECS,
     secsToNanos STOP_LOSS_ACTIVE_15MIN_SECS,
     STOP_LOSS_THRESHOLD_15MIN)

/-- `market_duration.saturating_sub(pos.entry_time.elapsed())` for a
position of the given market type and age. -/
def timeUntilExpiry (market_type age_nanos : Nat) : Nat :=
  (stopLossParams market_type).1 - age_nanos

/-- The reversal measure of the stop-loss check
(src/strategy.rs lines 179–185). -/
def reversal (pos : Position) (current_momentum : ℚ) : ℚ :=
  if pos.side = 0 then pos.entry_momentum - current_momentum
  else current_momentum - pos.entry_momentum

/-- Whether the stop-loss check fires for a position at instant
`now_inst` given the current momentum for its market type
(src/strategy.rs lines 159–191): skipped while
`time_until_expiry > danger_zone`, else fires when
`reversal >= threshold`. -/
def stopLossTriggered (pos : Position) (current_momentum : ℚ)
    (now_inst : Nat) : Bool :=
  let danger_zone := (stopLossParams pos.market_type).2.1
  let tte := timeUntilExpiry pos.market_type (now_inst - pos.entry_time)
  if danger_zone < tte then false
  else decide ((stopLossParams pos.market_type).2.2 ≤ reversal pos current_momentum)

/-- The stop-loss exit instruction (src/strategy.rs lines 194–199):
symbol `asset*100 + market_type + 1000`, side flipped, price 40. -/
def sellInstruction (pos : Position) : TradeInstruction :=
  { symbol := pos.asset_symbol * 100 + pos.market_type + 1000,
    side := if pos.side = 0 then 1 else 0,
    price_cents := 40,
    size := TRADE_SIZE_DOLLARS }

/-- The stop-loss sweep of one tick (src/strategy.rs lines 151–221):
positions of other assets are kept; a triggered position of the tick's
asset has its sell instruction pushed and is then removed from the vector
whether or not the push succeeded (`positions_to_close` is filled before
the push and removal is unconditional — only the logging is gated on
`is_ok`). -/
def stopLossPhase (asset_symbol : Nat) (momentum_60 momentum_15 : ℚ)
    (now_inst : Nat) :
    List Position → Channel → List Position × Channel
  | [], ch => ([], ch)
  | pos :: rest, ch =>
    if pos.asset_symbol ≠ asset_symbol then
      let r := stopLossPhase asset_symbol momentum_60 momentum_15 now_inst rest ch
      (pos :: r.1, r.2)
    else
      let mom := if pos.market_type = 60 then momentum_60 else momentum_15
      if stopLossTriggered pos mom now_inst then
        let pushed := ch.push (sellInstruction pos)
        stopLossPhase asset_symbol momentum_60 momentum_15 now_inst rest pushed.1
      else
        let r := stopLossPhase asset_symbol momentum_60 momentum_15 now_inst rest ch
        (pos :: r.1, r.2)

/-- Number of open positions for one asset
(src/strategy.rs lines 235, 279). -/
def countAsset (positions : List Position) (asset_symbol : Nat) : Nat :=
  (positions.filter fun p => p.asset_symbol == asset_symbol).length

/-- The per-asset cooldown gate (src/strategy.rs lines 228–232):
a last-trade instant exists and `elapsed < 5 s`. -/
def cooldownActive (lastTradeTimes : Nat → Option Nat)
    (asset_symbol now_inst : Nat) : Bool :=
  match lastTradeTimes asset_symbol with
  | some t => decide (now_inst - t < secsToNanos COOLDOWN_SECS)
  | none => false

/-- One entry attempt (the shared shape of src/strategy.rs
lines 243–275 and 280–313): when `|momentum| ≥ threshold`, build the
instruction `asset*100 + market_type` at price 50 and push it; only on a
successful push is the `Position` appended and the last-trade instant
set. -/
def tryEntry (asset_symbol market_type : Nat) (threshold momentum : ℚ)
    (now_inst : Nat) (positions : List Position)
    (lastTradeTimes : Nat → Option Nat) (ch : Channel) :
    List Position × (Nat → Option Nat) × Channel :=
  if threshold ≤ |momentum| then
    let side : Nat := if 0 < momentum then 0 else 1
    let instr : TradeInstruction :=
      { symbol := asset_symbol * 100 + market_type, side := side,
        price_cents := 50, size := TRADE_SIZE_DOLLARS }
    let pushed := ch.push instr
    if pushed.2 then
      (positions ++ [{ asset_symbol := asset_symbol,
                       market_type := market_type, side := side,
                       entry_momentum := momentum,
                       entry_time := now_inst,
                       entry_price_cents := 50 }],
       fun k => if k = asset_symbol then some now_inst else lastTradeTimes k,
       pushed.1)
    else (positions, lastTradeTimes, pushed.1)
  else (positions, lastTradeTimes, ch)

/-- The entry logic of one tick (src/strategy.rs lines 223–313): the
cooldown and the per-asset position limit gate both classes; the 60-min
class is attempted first; the 15-min class re-checks the limit against
the possibly grown vector. -/
def entryPhase (asset_symbol : Nat) (momentum_60 momentum_15 : ℚ)
    (now_inst : Nat) (positions : List Position)
    (lastTradeTimes : Nat → Option Nat) (ch : Channel) :
    List Position × (Nat → Option Nat) × Channel :=
  if cooldownActive lastTradeTimes asset_symbol now_inst then
    (positions, lastTradeTimes, ch)
  else if MAX_POSITIONS ≤ countAsset positions asset_symbol then
    (positions, lastTradeTimes, ch)
  else
    let r60 := tryEntry asset_symbol 60 MOMENTUM_THRESHOLD_60MIN momentum_60
      now_inst positions lastTradeTimes ch
    if countAsset r60.1 asset_symbol < MAX_POSITIONS then
      tryEntry asset_symbol 15 MOMENTUM_THRESHOLD_15MIN momentum_15
        now_inst r60.1 r60.2.1 r60.2.2
    else r60

/-- One full iteration of the `run_strategy` loop on a popped tick
(src/strategy.rs lines 84–314): unknown symbols are skipped; otherwise
the tick's history is updated and pruned, both momenta are computed, the
stop-loss sweep runs, and then the entry logic.  `now_inst` stands for
the `Instant::now()` values of the iteration. -/
def strategyStep (st : StratState) (ch : Channel) (u : MarketUpdate)
    (now_inst : Nat) : StratState × Channel :=
  if u.symbol ∈ knownAssets then
    let hist := insertAndPrune (st.histories u.symbol) u.price u.ts
    let momentum_60 := calculate_momentum hist u.ts
      (MOMENTUM_WINDOW_60MIN_SECS * 1000)
    let momentum_15 := calculate_momentum hist u.ts
      (MOMENTUM_WINDOW_15MIN_SECS * 1000)
    let sl := stopLossPhase u.symbol momentum_60 momentum_15 now_inst
      st.positions ch
    let ep := entryPhase u.symbol momentum_60 momentum_15 now_inst
      sl.1 st.lastTradeTimes sl.2
    ({ histories := fun k => if k = u.symbol then hist else st.histories k,
       positions := ep.1,
       lastTradeTimes := ep.2.1 }, ep.2.2)
  else (st, ch)

/-! ## src/execution.rs : the per-instruction step of `run_execution` -/

/-- The symbol decode of `run_execution`
(src/execution.rs lines 92–99): `is_sell`, `asset_id`, `market_mins`. -/
def decodeSymbol (symbol : Nat) : Bool × Nat × Nat :=
  let is_sell := decide (1000 ≤ symbol)
  let base_symbol := if 1000 ≤ symbol then symbol - 1000 else symbol
  (is_sell, base_symbol / 100, base_symbol % 100)

/-- The projected profit computed for every popped instruction
(src/execution.rs lines 81–87): `shares = size / price`,
`profit = shares * 1.00 - size`, in dollars. -/
def projectedProfit (trade : TradeInstruction) : ℚ :=
  let price_f : ℚ := (trade.price_cents : ℚ) / 100
  let size_f : ℚ := (trade.size : ℚ)
  let shares := size_f / price_f
  let payout := shares * 1
  payout - size_f

/-- The external collaborators of one `run_execution` iteration in
LIVE_MODE, fixed for that iteration: whether the Polymarket client is
present, whether the market-cache lookup (with the DAILY fallback)
found a market, the resolved outcome-token index if any, the fetched
orderbook best bid/ask if any, and the order-submission result. -/
structure ExecEnv where
  clientPresent : Bool
  foundMarket : Bool
  tokenIndex : Option Nat
  orderbook : Option (ℚ × ℚ)
  submitResult : Except String String

/-- Whether the iteration reaches `_order_success = true`
(src/execution.rs lines 154–297): client present, market found, token
resolved, orderbook fetched, value filters passed at the ask, and the
order submission returned `Ok`. -/
def orderSuccess (env : ExecEnv) : Bool :=
  if env.clientPresent then
    if env.foundMarket then
      match env.tokenIndex with
      | some _ =>
        match env.orderbook with
        | some (bid, ask) =>
          match passes_value_filters ask bid ask with
          | Except.ok _ =>
            match env.submitResult with
            | Except.ok _ => true
            | Except.error _ => false
          | Except.error _ => false
        | none => false
      | none => false
    else false
  else false

/-- The P&L effect of one `run_execution` iteration on a popped
instruction (src/execution.rs lines 79–368, LIVE_MODE): after the whole
submission attempt, `risk_manager.update_pnl(profit)` is called with the
projected profit — unconditionally, on every branch (line 352 sits after
the entire market-lookup / filter / submission `if`-tree).  Returns
`(order_success, new accumulator, new tier)`. -/
def execTradeStep (env : ExecEnv) (trade : TradeInstruction)
    (pnl_cents : Int) : Bool × Int × RiskTier :=
  let profit := projectedProfit trade
  let success := orderSuccess env
  let upd := update_pnl pnl_cents profit
  (success, upd.1, upd.2)

/-- Rust `Result::is_ok`, over the `Except` embedding of `Result`. -/
def is_ok {ε α : Type} : Except ε α → Bool
  | Except.ok _ => true
  | Except.error _ => false

/-! ## Concrete fixtures used by witnesses and counterexamples -/

/-- An open 15-minute BTC position, entered at instant 0 with momentum
+1%. -/
def c2Pos : Position :=
  { asset_symbol := 1, market_type := 15, side := 0,
    entry_momentum := 1 / 100, entry_time := 0, entry_price_cents := 50 }

/-- Strategy state holding only `c2Pos`, with empty histories and no
cooldowns. -/
def c2State : StratState :=
  { histories := fun _ => [], positions := [c2Pos],
    lastTradeTimes := fun _ => none }

/-- A strategy→execution channel that is already full (capacity 0), so
every push fails. -/
def c2Chan : Channel := ⟨0, []⟩

/-- A BTC tick at price 100 cents, timestamp 1000 ms. -/
def c2Tick : MarketUpdate := ⟨1, 100, 1000⟩

/-- The iteration instant: 900 s after `c2Pos` was entered, so the
position sits at expiry of its 15-minute market (inside the danger
zone). -/
def c2Now : Nat := secsToNanos 900

/-- Execution environment in which everything up to submission succeeds
(market found, token resolved, orderbook bid 0.58 / ask 0.62 passing all
value filters) and the order submission itself fails. -/
def c1FailEnv : ExecEnv :=
  { clientPresent := true, foundMarket := true, tokenIndex := some 0,
    orderbook := some (58 / 100, 62 / 100),
    submitResult := Except.error "order submission failed" }

/-- A BTC 60-minute entry instruction as emitted by the strategy. -/
def c1Trade : TradeInstruction :=
  { symbol := 160, side := 0, price_cents := 50, size := 10 }

/-- Empty strategy state (no history, no positions, no cooldowns). -/
def emptyState : StratState :=
  { histories := fun _ => [], positions := [],
    lastTradeTimes := fun _ => none }

/-! ## Theorems -/

/-- C5: `calculate_tier` classifies a session total ≥ +1000 cents as
Aggressive, ≤ −1000 cents as Conservative, and any total strictly between
−1000 and +1000 as Moderate; `update_pnl` adds the delta (dollars
converted to integer cents by the `as i64` cast) to the accumulator and
returns the tier of the new post-update total. -/
theorem c5_tier_thresholds_and_update :
    (∀ t : Int, 1000 ≤ t → calculate_tier t = RiskTier.Aggressive) ∧
    (∀ t : Int, t ≤ -1000 → calculate_tier t = RiskTier.Conservative) ∧
    (∀ t : Int, -1000 < t → t < 1000 → calculate_tier t = RiskTier.Moderate) ∧
    (∀ (st : Int) (d : ℚ), update_pnl st d =
      (st + f64AsI64 (d * 100), calculate_tier (st + f64AsI64 (d * 100)))) := by
  refine ⟨?_, ?_, ?_, ?_⟩
  · intro t ht
    simp [calculate_tier, PROFIT_THRESHOLD_CENTS, ht]
  · intro t ht
    have h1 : ¬ PROFIT_THRESHOLD_CENTS ≤ t := by
      simp only [PROFIT_THRESHOLD_CENTS]; omega
    simp [calculate_tier, h1, LOSS_THRESHOLD_CENTS, ht]
  · intro t h1 h2
    have h3 : ¬ PROFIT_THRESHOLD_CENTS ≤ t := by
      simp only [PROFIT_THRESHOLD_CENTS]; omega
    have h4 : ¬ t ≤ LOSS_THRESHOLD_CENTS := by
      simp only [LOSS_THRESHOLD_CENTS]; omega
    simp [calculate_tier, h3, h4]
  · intro st d
    rfl

/-- Witness for C5 at the boundary totals +1000, −1000, +999 and −999. -/
theorem c5_tier_thresholds_and_update_witness :
    calculate_tier 1000 = RiskTier.Aggressive ∧
    calculate_tier (-1000) = RiskTier.Conservative ∧
    calculate_tier 999 = RiskTier.Moderate ∧
    calculate_tier (-999) = RiskTier.Moderate :=
  ⟨c5_tier_thresholds_and_update.1 1000 (by norm_num),
   c5_tier_thresholds_and_update.2.1 (-1000) (by norm_num),
   c5_tier_thresholds_and_update.2.2.1 999 (by norm_num) (by norm_num),
   c5_tier_thresholds_and_update.2.2.1 (-999) (by norm_num) (by norm_num)⟩

/-- C6: The stop-loss check is skipped whenever the time until market
expiry (market duration minus position age, saturating at zero) strictly
exceeds the danger zone, regardless of the reversal magnitude; at a
time-until-expiry exactly equal to the danger zone the position is
evaluated (the check fires iff the reversal reaches the threshold).  The
parameters are 180 s of danger zone for the 900 s 15-minute market and
900 s for the 3600 s 60-minute market. -/
theorem c6_danger_zone_gating :
    (∀ (pos : Position) (mom : ℚ) (now_inst : Nat),
      (stopLossParams pos.market_type).2.1 <
          timeUntilExpiry pos.market_type (now_inst - pos.entry_time) →
        stopLossTriggered pos mom now_inst = false) ∧
    (∀ (pos : Position) (mom : ℚ) (now_inst : Nat),
      timeUntilExpiry pos.market_type (now_inst - pos.entry_time) =
          (stopLossParams pos.market_type).2.1 →
        stopLossTriggered pos mom now_inst =
          decide ((stopLossParams pos.market_type).2.2 ≤ reversal pos mom)) ∧
    stopLossParams 15 = (secsToNanos 900, secsToNanos 180, 2 / 1000) ∧
    stopLossParams 60 = (secsToNanos 3600, secsToNanos 900, 3 / 1000) := by
  refine ⟨?_, ?_, ?_, ?_⟩
  · intro pos mom now_inst h
    simp only [stopLossTriggered]
    rw [if_pos h]
  · intro pos mom now_inst h
    simp only [stopLossTriggered]
    rw [if_neg (by rw [h]; exact lt_irrefl _)]
  · rfl
  · rfl

/-- Witness for C6: a 15-minute position aged 600 s has 300 s until
expiry, which exceeds its 180 s danger zone, so no reversal can trigger
the stop-loss. -/
theorem c6_danger_zone_gating_witness :
    stopLossTriggered
      { asset_symbol := 1, market_type := 15, side := 0,
        entry_momentum := 0, entry_time := 0, entry_price_cents := 50 }
      (-(1 : ℚ)) (secsToNanos 600) = false :=
  c6_danger_zone_gating.1 _ _ _ (by norm_num [stopLossParams, timeUntilExpiry,
    secsToNanos, MARKET_DURATION_15MIN_SECS, STOP_LOSS_ACTIVE_15MIN_SECS])

/-- C10: The ExecutionEngine's symbol decoding inverts the
StrategyEngine's encoding: for every asset id in {1,2,3,4}, duration in
{15,60} and exit flag, `asset*100 + duration` (plus 1000 on exit) decodes
back to exactly the same triple; the stop-loss exit instruction built by
the strategy carries exactly that encoding. -/
theorem c10_symbol_roundtrip :
    (∀ (a m : Nat) (e : Bool),
      (a = 1 ∨ a = 2 ∨ a = 3 ∨ a = 4) → (m = 15 ∨ m = 60) →
      decodeSymbol (if e then a * 100 + m + 1000 else a * 100 + m) =
        (e, a, m)) ∧
    (∀ pos : Position, (sellInstruction pos).symbol =
      pos.asset_symbol * 100 + pos.market_type + 1000) := by
  constructor
  · intro a m e ha hm
    rcases ha with h | h | h | h <;> rcases hm with h' | h' <;>
      subst h <;> subst h' <;> cases e <;> decide
  · intro pos
    rfl

/-- Witness for C10 at BTC (asset 1), 60-minute market, exit flag set:
symbol 1160 decodes to (sell, 1, 60). -/
theorem c10_symbol_roundtrip_witness :
    decodeSymbol (if true then 1 * 100 + 60 + 1000 else 1 * 100 + 60) =
      (true, 1, 60) :=
  c10_symbol_roundtrip.1 1 60 true (Or.inl rfl) (Or.inr rfl)

/-- C1 (amended): In `run_execution`, the session P&L accumulator is
updated on *every* consumed trade instruction — `update_pnl` at
src/execution.rs line 352 sits after the whole submission tree — and the
amount fed to it is the projected profit computed from the instruction's
own `price_cents` and `size`, never the actual fill price; submission
failures, resolution failures and value-filter rejections all update the
accumulator identically to successes. -/
theorem c1_pnl_updated_unconditionally :
    ∀ (env : ExecEnv) (trade : TradeInstruction) (pnl : Int),
      0 < trade.price_cents →
      (execTradeStep env trade pnl).2.1 =
        pnl + f64AsI64 (projectedProfit trade * 100) := by
  intro env trade pnl _
  rfl

/-- Witness for C1 (amended): the failing-submission environment still
moves the accumulator from 0 to 0 + trunc(10 × 100). -/
theorem c1_pnl_updated_unconditionally_witness :
    (execTradeStep c1FailEnv c1Trade 0).2.1 =
      0 + f64AsI64 (projectedProfit c1Trade * 100) :=
  c1_pnl_updated_unconditionally c1FailEnv c1Trade 0 (by norm_num [c1Trade])

/-- C1 counterexample: The claim states that on a submission failure
the P&L accumulator is left unchanged.  In the environment `c1FailEnv`
the order submission fails (`_order_success` stays false), yet processing
the strategy's standard $10 entry at 50 cents moves the accumulator from
0 to 1000 cents. -/
theorem c1_counterexample :
    (execTradeStep c1FailEnv c1Trade 0).1 = false ∧
    (execTradeStep c1FailEnv c1Trade 0).2.1 = 1000 ∧
    (1000 : Int) ≠ 0 := by
  refine ⟨?_, ?_, by norm_num⟩
  · norm_num [execTradeStep, orderSuccess, c1FailEnv,
      passes_value_filters, calculate_upside, calculate_spread,
      MAX_ENTRY_PRICE, MIN_UPSIDE, MAX_SPREAD]
  · norm_num [execTradeStep, update_pnl, projectedProfit, c1Trade,
      f64AsI64]

/-- C8: For every entry price strictly between 0 and 1 and positive
bid, `passes_value_filters` accepts iff the price is at most 0.65, the
implied upside `(1−p)/p` is at least 0.30, and the relative spread
`(ask−bid)/bid` is at most 0.10; the price cap is checked first, so any
price above 0.65 yields the "price too high" rejection for arbitrary bid
and ask; and the concrete quote `entry = ask = 0.62`, `bid = 0.58`
passes all three filters. -/
theorem c8_value_filters :
    (∀ entry_price bid ask : ℚ,
      0 < entry_price → entry_price < 1 → 0 < bid →
      (is_ok (passes_value_filters entry_price bid ask) = true ↔
        (entry_price ≤ 65 / 100 ∧
         30 / 100 ≤ (1 - entry_price) / entry_price ∧
         (ask - bid) / bid ≤ 10 / 100))) ∧
    (∀ entry_price bid ask : ℚ, 65 / 100 < entry_price →
      passes_value_filters entry_price bid ask =
        Except.error "price too high") ∧
    is_ok (passes_value_filters (62 / 100) (58 / 100) (62 / 100)) = true := by
  refine ⟨?_, ?_, ?_⟩
  · intro p bid ask hp0 hp1 hb
    have hguard : ¬ (p ≤ 0 ∨ 1 ≤ p) := by
      push_neg
      exact ⟨hp0, hp1⟩
    have hspread : ¬ bid ≤ 0 := not_le.mpr hb
    simp only [passes_value_filters, calculate_upside, calculate_spread,
      MAX_ENTRY_PRICE, MIN_UPSIDE, MAX_SPREAD, hguard, hspread,
      if_false]
    by_cases h1 : 65 / 100 < p
    · rw [if_pos h1]
      simp [is_ok]
      intro h
      exact absurd h1 (not_lt.mpr h)
    · rw [if_neg h1]
      by_cases h2 : (1 - p) / p < 30 / 100
      · rw [if_pos h2]
        simp [is_ok]
        intro _ h
        exact absurd h2 (not_lt.mpr h)
      · rw [if_neg h2]
        by_cases h3 : 10 / 100 < (ask - bid) / bid
        · rw [if_pos h3]
          simp [is_ok]
          intro _ _
          exact h3
        · rw [if_neg h3]
          simp [is_ok, not_lt.mp h1, not_lt.mp h2, not_lt.mp h3]
  · intro p bid ask h
    simp only [passes_value_filters, MAX_ENTRY_PRICE]
    rw [if_pos h]
  · norm_num [passes_value_filters, calculate_upside, calculate_spread,
      MAX_ENTRY_PRICE, MIN_UPSIDE, MAX_SPREAD, is_ok]

/-- Witness for C8 at the spec's own example quote: entry = ask = 0.62,
bid = 0.58 is accepted, via the iff applied at those values. -/
theorem c8_value_filters_witness :
    is_ok (passes_value_filters (62 / 100) (58 / 100) (62 / 100)) = true :=
  (c8_value_filters.1 (62 / 100) (58 / 100) (62 / 100)
      (by norm_num) (by norm_num) (by norm_num)).mpr
    (by norm_num)

/-- C4 (amended): `calculate_momentum` returns 0 on an empty history;
returns 0 when *every* retained snapshot is strictly older than
`now − window_ms` (so no snapshot reaches the cutoff — not when the
window is merely under-filled: an oldest snapshot strictly newer than the
cutoff is simply selected as `oldest`); returns 0 when the selected
oldest price is zero; and otherwise returns
`(current.price − oldest.price) / oldest.price` where `oldest` is the
first snapshot with timestamp ≥ `now − window_ms` (saturating
subtraction).  The function is total, hence never panics. -/
theorem c4_momentum_characterization :
    ∀ (history : List PriceSnapshot) (now_ms window_ms : Nat),
      (history = [] → calculate_momentum history now_ms window_ms = 0) ∧
      ((∀ s ∈ history, s.timestamp_ms < now_ms - window_ms) →
        calculate_momentum history now_ms window_ms = 0) ∧
      (∀ o, history.find?
          (fun p => decide (now_ms - window_ms ≤ p.timestamp_ms)) = some o →
        (o.price_cents = 0 →
          calculate_momentum history now_ms window_ms = 0) ∧
        (0 < o.price_cents → ∀ c, history.getLast? = some c →
          calculate_momentum history now_ms window_ms =
            ((c.price_cents : ℚ) - (o.price_cents : ℚ)) /
              (o.price_cents : ℚ))) := by
  intro history now_ms window_ms
  refine ⟨?_, ?_, ?_⟩
  · intro he
    subst he
    rfl
  · intro hall
    cases history with
    | nil => rfl
    | cons a l =>
      have hnone : (a :: l).find?
          (fun p => decide (now_ms - window_ms ≤ p.timestamp_ms)) = none := by
        rw [List.find?_eq_none]
        intro s hs
        simpa using Nat.not_le.mpr (hall s hs)
      simp only [calculate_momentum, List.isEmpty_cons, Bool.false_eq_true,
        if_false, hnone, Option.map_none']
  · intro o hfind
    have hne : history ≠ [] := by
      intro he
      rw [he] at hfind
      simp at hfind
    have hlast : ∃ c, history.getLast? = some c := by
      cases history with
      | nil => exact absurd rfl hne
      | cons a l => exact ⟨(a :: l).getLast (by simp), List.getLast?_eq_getLast _ _⟩
    obtain ⟨c₀, hc₀⟩ := hlast
    constructor
    · intro hzero
      simp only [calculate_momentum, hfind, hc₀, Option.map_some',
        List.isEmpty_eq_true, hne, if_false, hzero]
      simp
    · intro hpos c hc
      rw [hc] at hc₀
      obtain rfl : c = c₀ := by injection hc₀
      simp only [calculate_momentum, hfind, hc, Option.map_some',
        List.isEmpty_eq_true, hne, if_false]
      rw [if_pos hpos]

/-- Witness for C4 (amended): on a two-snapshot history whose oldest
retained snapshot (1800 ms) is newer than the cutoff 1500 ms, the first
snapshot is selected as `oldest` and the momentum is (110−100)/100. -/
theorem c4_momentum_characterization_witness :
    calculate_momentum [⟨100, 1800⟩, ⟨110, 2000⟩] 2000 500 =
      (((110 : Nat) : ℚ) - ((100 : Nat) : ℚ)) / ((100 : Nat) : ℚ) :=
  ((c4_momentum_characterization [⟨100, 1800⟩, ⟨110, 2000⟩] 2000
      500).2.2 ⟨100, 1800⟩ (by simp)).2 (by norm_num) ⟨110, 2000⟩ (by simp)

/-- C4 counterexample: The claim states that `calculate_momentum`
returns 0 when the window is not yet filled, i.e. when the oldest
retained snapshot is strictly newer than `now − window_ms`.  On the
history [(100 ¢, 1800 ms), (110 ¢, 2000 ms)] with `now = 2000` and a
500 ms window, the oldest retained snapshot (1800 ms) is strictly newer
than the cutoff 1500 ms, yet the momentum is 1/10, not 0: the code simply
uses the first retained snapshot as `oldest`. -/
theorem c4_counterexample :
    2000 - 500 < 1800 ∧
    calculate_momentum [⟨100, 1800⟩, ⟨110, 2000⟩] 2000 500 = 1 / 10 ∧
    (1 / 10 : ℚ) ≠ 0 := by
  refine ⟨by norm_num, ?_, by norm_num⟩
  norm_num [calculate_momentum, List.find?]

/-- C3: When the strategy→execution channel is full, every push in
the entry logic fails, so the entry phase of the tick leaves the
open-position vector, the per-asset cooldown map and the channel exactly
unchanged: no tracked `Position` is created (the position append and the
cooldown insert sit inside the `if let Ok(())` branch of the push). -/
theorem c3_entry_enqueue_failure :
    ∀ (asset_symbol : Nat) (momentum_60 momentum_15 : ℚ) (now_inst : Nat)
      (positions : List Position) (lastTradeTimes : Nat → Option Nat)
      (ch : Channel),
      ch.capacity ≤ ch.buf.length →
      entryPhase asset_symbol momentum_60 momentum_15 now_inst positions
        lastTradeTimes ch = (positions, lastTradeTimes, ch) := by
  intro a m60 m15 n ps lt ch hfull
  have hpush : ∀ t : TradeInstruction, ch.push t = (ch, false) := by
    intro t
    simp [Channel.push, Nat.not_lt.mpr hfull]
  have htry : ∀ (mt : Nat) (θ mom : ℚ),
      tryEntry a mt θ mom n ps lt ch = (ps, lt, ch) := by
    intro mt θ mom
    simp only [tryEntry, hpush]
    split <;> rfl
  simp only [entryPhase]
  split
  · rfl
  · split
    · rfl
    · rw [htry]
      split <;> [rw [htry]; rfl]

/-- Witness for C3: a zero-capacity (hence full) channel with an entry
signal leaves the empty position vector, the cooldown map and the channel
untouched. -/
theorem c3_entry_enqueue_failure_witness :
    entryPhase 1 1 1 0 [] (fun _ => none) ⟨0, []⟩ =
      ([], fun _ => none, ⟨0, []⟩) :=
  c3_entry_enqueue_failure 1 1 1 0 [] (fun _ => none) ⟨0, []⟩ (by decide)

set_option maxHeartbeats 1000000 in
/-- C2 (code bug): The claim — and the spec — say that a stop-loss
exit whose enqueue fails must leave the `Position` in place for retry.
The code instead records the index in `positions_to_close` *before*
attempting the push and removes it unconditionally (only the logging is
gated on `is_ok`).  Concretely: with a full (zero-capacity) channel, a
15-minute position in its danger zone whose reversal (1%) exceeds the
0.2% threshold is removed from the open-position vector even though the
exit instruction was never enqueued. -/
theorem c2_stop_loss_removed_despite_full_channel :
    c2Chan.capacity ≤ c2Chan.buf.length ∧
    stopLossTriggered c2Pos 0 c2Now = true ∧
    (strategyStep c2State c2Chan c2Tick c2Now).1.positions = [] ∧
    (strategyStep c2State c2Chan c2Tick c2Now).2 = c2Chan := by
  refine ⟨by decide, ?_, ?_⟩
  · norm_num [stopLossTriggered, c2Pos, c2Now, stopLossParams,
      timeUntilExpiry, reversal, secsToNanos, MARKET_DURATION_15MIN_SECS,
      STOP_LOSS_ACTIVE_15MIN_SECS, STOP_LOSS_THRESHOLD_15MIN]
  · constructor <;>
    norm_num [strategyStep, knownAssets, c2State, c2Chan, c2Tick, c2Now,
      c2Pos, insertAndPrune, List.dropWhile, calculate_momentum,
      List.find?, stopLossPhase, stopLossTriggered, stopLossParams,
      timeUntilExpiry, reversal, secsToNanos, MARKET_DURATION_15MIN_SECS,
      STOP_LOSS_ACTIVE_15MIN_SECS, STOP_LOSS_THRESHOLD_15MIN,
      sellInstruction, Channel.push, entryPhase, cooldownActive,
      countAsset, tryEntry, MOMENTUM_WINDOW_60MIN_SECS,
      MOMENTUM_WINDOW_15MIN_SECS, MOMENTUM_THRESHOLD_60MIN,
      MOMENTUM_THRESHOLD_15MIN, MAX_POSITIONS, TRADE_SIZE_DOLLARS,
      COOLDOWN_SECS]

/-- On a timestamp-sorted history, the front-pruning of `run_strategy`
leaves only snapshots at or past the cutoff. -/
lemma dropWhile_cutoff_lower (c : Nat) :
    ∀ l : List PriceSnapshot,
      List.Pairwise (fun a b => a.timestamp_ms ≤ b.timestamp_ms) l →
      ∀ s ∈ l.dropWhile (fun f => decide (f.timestamp_ms < c)),
        c ≤ s.timestamp_ms := by
  intro l
  induction l with
  | nil =>
    intro _ s hs
    simp [List.dropWhile] at hs
  | cons a t ih =>
    intro hp s hs
    by_cases hc : a.timestamp_ms < c
    · rw [List.dropWhile_cons, if_pos (by simpa using hc)] at hs
      exact ih hp.of_cons s hs
    · rw [List.dropWhile_cons, if_neg (by simpa using hc)] at hs
      rcases List.mem_cons.mp hs with rfl | hmem
      · exact Nat.not_lt.mp hc
      · exact le_trans (Nat.not_lt.mp hc) (List.rel_of_pairwise_cons hp hmem)

/-- After `insertAndPrune` on a sorted history bounded by the tick
timestamp, every remaining snapshot is at or past `ts − 900000`. -/
lemma insertAndPrune_lower (l : List PriceSnapshot) (price ts : Nat)
    (hp : List.Pairwise (fun a b => a.timestamp_ms ≤ b.timestamp_ms) l)
    (hb : ∀ s ∈ l, s.timestamp_ms ≤ ts) :
    ∀ s ∈ insertAndPrune l price ts, ts - 900000 ≤ s.timestamp_ms := by
  have hp' : List.Pairwise (fun a b => a.timestamp_ms ≤ b.timestamp_ms)
      (l ++ [⟨price, ts⟩]) := by
    rw [List.pairwise_append]
    exact ⟨hp, List.pairwise_singleton _ _,
      fun a ha b hbmem => by
        rcases List.mem_singleton.mp hbmem with rfl
        exact hb a ha⟩
  exact dropWhile_cutoff_lower (ts - 900000) (l ++ [⟨price, ts⟩]) hp'

/-- `insertAndPrune` preserves timestamp-sortedness. -/
lemma insertAndPrune_pairwise (l : List PriceSnapshot) (price ts : Nat)
    (hp : List.Pairwise (fun a b => a.timestamp_ms ≤ b.timestamp_ms) l)
    (hb : ∀ s ∈ l, s.timestamp_ms ≤ ts) :
    List.Pairwise (fun a b => a.timestamp_ms ≤ b.timestamp_ms)
      (insertAndPrune l price ts) := by
  have hp' : List.Pairwise (fun a b => a.timestamp_ms ≤ b.timestamp_ms)
      (l ++ [⟨price, ts⟩]) := by
    rw [List.pairwise_append]
    exact ⟨hp, List.pairwise_singleton _ _,
      fun a ha b hbmem => by
        rcases List.mem_singleton.mp hbmem with rfl
        exact hb a ha⟩
  exact hp'.sublist (List.dropWhile_sublist _)

/-- After `insertAndPrune`, every remaining snapshot is at or before the
tick timestamp (given the incoming history was). -/
lemma insertAndPrune_upper (l : List PriceSnapshot) (price ts : Nat)
    (hb : ∀ s ∈ l, s.timestamp_ms ≤ ts) :
    ∀ s ∈ insertAndPrune l price ts, s.timestamp_ms ≤ ts := by
  intro s hs
  have hmem : s ∈ l ++ [⟨price, ts⟩] :=
    (List.dropWhile_sublist _).mem hs
  rcases List.mem_append.mp hmem with h | h
  · exact hb s h
  · rcases List.mem_singleton.mp h with rfl
    exact le_refl _

/-- For a known asset, the tick's own history after `strategyStep` is
exactly `insertAndPrune` of the old history. -/
lemma strategyStep_histories_self (st : StratState) (ch : Channel)
    (u : MarketUpdate) (now_inst : Nat) (hk : u.symbol ∈ knownAssets) :
    (strategyStep st ch u now_inst).1.histories u.symbol =
      insertAndPrune (st.histories u.symbol) u.price u.ts := by
  rw [strategyStep, if_pos hk]
  simp

/-- C7: After `run_strategy` processes a tick with timestamp `T` for
a known asset, assuming that asset's history was timestamp-sorted with
all entries at or before `T` (monotone arrivals), the remaining history
satisfies: every snapshot has timestamp ≥ `T − 900000` (saturating),
the history is monotonically non-decreasing in timestamp, and no two
snapshots are more than 900000 ms (15 minutes) apart. -/
theorem c7_retention :
    ∀ (st : StratState) (ch : Channel) (u : MarketUpdate) (now_inst : Nat),
      u.symbol ∈ knownAssets →
      List.Pairwise (fun a b => a.timestamp_ms ≤ b.timestamp_ms)
        (st.histories u.symbol) →
      (∀ s ∈ st.histories u.symbol, s.timestamp_ms ≤ u.ts) →
      (∀ s ∈ (strategyStep st ch u now_inst).1.histories u.symbol,
          u.ts - 900000 ≤ s.timestamp_ms) ∧
      List.Pairwise (fun a b => a.timestamp_ms ≤ b.timestamp_ms)
        ((strategyStep st ch u now_inst).1.histories u.symbol) ∧
      (∀ s₁ ∈ (strategyStep st ch u now_inst).1.histories u.symbol,
        ∀ s₂ ∈ (strategyStep st ch u now_inst).1.histories u.symbol,
          s₂.timestamp_ms - s₁.timestamp_ms ≤ 900000) := by
  intro st ch u now_inst hk hp hb
  rw [strategyStep_histories_self st ch u now_inst hk]
  refine ⟨insertAndPrune_lower _ _ _ hp hb,
    insertAndPrune_pairwise _ _ _ hp hb, ?_⟩
  intro s₁ h₁ s₂ h₂
  have hlo := insertAndPrune_lower _ _ _ hp hb s₁ h₁
  have hhi := insertAndPrune_upper _ _ _ hb s₂ h₂
  omega

/-- Witness for C7: a tick at 1000 ms into an empty BTC history yields
the single-snapshot history, which trivially satisfies retention,
sortedness and the 15-minute span bound. -/
theorem c7_retention_witness :
    (∀ s ∈ (strategyStep emptyState ⟨0, []⟩ ⟨1, 100, 1000⟩ 0).1.histories 1,
        1000 - 900000 ≤ s.timestamp_ms) ∧
    List.Pairwise (fun a b => a.timestamp_ms ≤ b.timestamp_ms)
      ((strategyStep emptyState ⟨0, []⟩ ⟨1, 100, 1000⟩ 0).1.histories 1) ∧
    (∀ s₁ ∈ (strategyStep emptyState ⟨0, []⟩ ⟨1, 100, 1000⟩ 0).1.histories 1,
      ∀ s₂ ∈ (strategyStep emptyState ⟨0, []⟩ ⟨1, 100, 1000⟩ 0).1.histories 1,
        s₂.timestamp_ms - s₁.timestamp_ms ≤ 900000) :=
  c7_retention emptyState ⟨0, []⟩ ⟨1, 100, 1000⟩ 0 (by decide)
    (by simp [emptyState]) (by simp [emptyState])

/-- The stop-loss sweep for asset `a` leaves the sub-list of positions
belonging to any other asset `b` untouched. -/
lemma stopLossPhase_filter_other (a b : Nat) (momentum_60 momentum_15 : ℚ)
    (now_inst : Nat) (hne : b ≠ a) :
    ∀ (ps : List Position) (ch : Channel),
      ((stopLossPhase a momentum_60 momentum_15 now_inst ps ch).1).filter
          (fun p => p.asset_symbol == b) =
        ps.filter (fun p => p.asset_symbol == b) := by
  intro ps
  induction ps with
  | nil => intro ch; rfl
  | cons pos rest ih =>
    intro ch
    simp only [stopLossPhase]
    by_cases hpa : pos.asset_symbol ≠ a
    · rw [if_pos hpa]
      simp only [List.filter_cons, ih ch]
    · rw [if_neg hpa]
      have ha : pos.asset_symbol = a := not_not.mp hpa
      have hpb : (pos.asset_symbol == b) = false := by
        rw [ha]
        exact beq_eq_false_iff_ne.mpr (Ne.symm hne)
      by_cases htr : stopLossTriggered pos
          (if pos.market_type = 60 then momentum_60 else momentum_15)
          now_inst = true
      · rw [if_pos htr, ih, List.filter_cons, hpb]
        simp
      · rw [if_neg htr]
        simp only [List.filter_cons, hpb, ih ch]

/-- A single entry attempt for asset `a` changes neither the positions
filtered to another asset `b` nor `b`'s cooldown entry. -/
lemma tryEntry_other (a b market_type : Nat) (threshold momentum : ℚ)
    (now_inst : Nat) (ps : List Position) (lastTradeTimes : Nat → Option Nat)
    (ch : Channel) (hne : b ≠ a) :
    ((tryEntry a market_type threshold momentum now_inst ps lastTradeTimes
        ch).1.filter (fun p => p.asset_symbol == b) =
      ps.filter (fun p => p.asset_symbol == b)) ∧
    ((tryEntry a market_type threshold momentum now_inst ps lastTradeTimes
        ch).2.1 b = lastTradeTimes b) := by
  have hab : ((a == b) : Bool) = false := beq_eq_false_iff_ne.mpr (Ne.symm hne)
  simp only [tryEntry]
  split
  · split <;> split
    · refine ⟨?_, ?_⟩
      · rw [List.filter_append, List.filter_cons]
        simp [hab]
      · simp [hne]
    · exact ⟨rfl, rfl⟩
    · refine ⟨?_, ?_⟩
      · rw [List.filter_append, List.filter_cons]
        simp [hab]
      · simp [hne]
    · exact ⟨rfl, rfl⟩
  · exact ⟨rfl, rfl⟩

/-- The whole entry phase for asset `a` changes neither the positions of
another asset `b` nor `b`'s cooldown entry. -/
lemma entryPhase_other (a b : Nat) (momentum_60 momentum_15 : ℚ)
    (now_inst : Nat) (ps : List Position) (lastTradeTimes : Nat → Option Nat)
    (ch : Channel) (hne : b ≠ a) :
    ((entryPhase a momentum_60 momentum_15 now_inst ps lastTradeTimes
        ch).1.filter (fun p => p.asset_symbol == b) =
      ps.filter (fun p => p.asset_symbol == b)) ∧
    ((entryPhase a momentum_60 momentum_15 now_inst ps lastTradeTimes
        ch).2.1 b = lastTradeTimes b) := by
  simp only [entryPhase]
  split
  · exact ⟨rfl, rfl⟩
  · split
    · exact ⟨rfl, rfl⟩
    · split
      · constructor
        · rw [(tryEntry_other a b 15 _ _ _ _ _ _ hne).1,
            (tryEntry_other a b 60 _ _ _ _ _ _ hne).1]
        · rw [(tryEntry_other a b 15 _ _ _ _ _ _ hne).2,
            (tryEntry_other a b 60 _ _ _ _ _ _ hne).2]
      · exact ⟨(tryEntry_other a b 60 _ _ _ _ _ _ hne).1,
          (tryEntry_other a b 60 _ _ _ _ _ _ hne).2⟩

/-- C9: A tick for asset `A` leaves every other asset's state exactly
unchanged: its price history, its cooldown timestamp, and its sub-list of
open positions (stop-loss evaluation, removal, and entry creation touch
only positions whose `asset_symbol` equals the tick's). -/
theorem c9_per_asset_isolation :
    ∀ (st : StratState) (ch : Channel) (u : MarketUpdate)
      (now_inst b : Nat), b ≠ u.symbol →
      (strategyStep st ch u now_inst).1.histories b = st.histories b ∧
      (strategyStep st ch u now_inst).1.lastTradeTimes b =
        st.lastTradeTimes b ∧
      (strategyStep st ch u now_inst).1.positions.filter
          (fun p => p.asset_symbol == b) =
        st.positions.filter (fun p => p.asset_symbol == b) := by
  intro st ch u now_inst b hne
  by_cases hk : u.symbol ∈ knownAssets
  · rw [strategyStep, if_pos hk]
    refine ⟨?_, ?_, ?_⟩
    · simp [hne]
    · simp only
      exact (entryPhase_other u.symbol b _ _ now_inst _ _ _ hne).2
    · simp only
      rw [(entryPhase_other u.symbol b _ _ now_inst _ _ _ hne).1]
      exact stopLossPhase_filter_other u.symbol b _ _ now_inst hne
        st.positions ch
  · rw [strategyStep, if_neg hk]
    exact ⟨rfl, rfl, rfl⟩

/-- Witness for C9: a BTC tick (asset 1) leaves ETH's (asset 2) history,
cooldown and positions unchanged. -/
theorem c9_per_asset_isolation_witness :
    (strategyStep emptyState ⟨0, []⟩ ⟨1, 100, 1000⟩ 0).1.histories 2 =
      emptyState.histories 2 ∧
    (strategyStep emptyState ⟨0, []⟩ ⟨1, 100, 1000⟩ 0).1.lastTradeTimes 2 =
      emptyState.lastTradeTimes 2 ∧
    (strategyStep emptyState ⟨0, []⟩ ⟨1, 100, 1000⟩ 0).1.positions.filter
        (fun p => p.asset_symbol == 2) =
      emptyState.positions.filter (fun p => p.asset_symbol == 2) :=
  c9_per_asset_isolation emptyState ⟨0, []⟩ ⟨1, 100, 1000⟩ 0 2 (by decide)

end TradingBot
